import Mathlib

/-!
Shallow embedding of the dillscan-indexer slot-processing pipeline:
`src/slots_processor/mod.rs` (`SlotsProcessor::process_slot`,
`SlotsProcessor::process_slots`), the entity conversions of
`src/clients/blobscan/types.rs`, and the driver loop of `src/indexer.rs`.

Hashes (`H256`), addresses and block numbers are modelled as `Nat`;
client calls are modelled as function-valued fields of an environment
record, each returning `Except String (Option _)` mirroring the Rust
`Result<Option<_>>` shape.  A Rust panic (`unwrap` on `None`) is an
explicit `Outcome.panic` constructor.  Effects (which clients were
called, what was submitted downstream) are recorded in the returned
trace so that "zero calls / zero submissions" properties are statable.
-/

namespace DillIndexer

/-- `const SLOT_PER_EPOCH: u32 = 6;` from `src/slots_processor/mod.rs`. -/
def SLOT_PER_EPOCH : Nat := 6

/-- Execution payload of a beacon block body; only the `block_hash`
field is used by `process_slot`. -/
structure ExecutionPayload where
  block_hash : Nat
  deriving DecidableEq, Repr

/-- Beacon block body: optional execution payload and optional list of
blob KZG commitments (commitments modelled as strings, as in the Rust
types). -/
structure BeaconBlockBody where
  execution_payload : Option ExecutionPayload
  blob_kzg_commitments : Option (List String)
  deriving DecidableEq, Repr

/-- Beacon block message wrapper (`beacon_block.message.body`). -/
structure BeaconBlockMessage where
  body : BeaconBlockBody
  deriving DecidableEq, Repr

/-- Beacon block as consumed by `process_slot`. -/
structure BeaconBlock where
  message : BeaconBlockMessage
  deriving DecidableEq, Repr

/-- Modelled from the spec: the beacon validator entry
`{pubkey, slot}` returned by `get_validators` (§6); the Rust type lives
in `src/clients/beacon/types.rs`, which is not part of the provided
sources. -/
structure Validator where
  pubkey : String
  slot : Nat
  deriving DecidableEq, Repr

/-- Modelled from the spec: a raw sidecar blob `{commitment, payload}`
(§6); the Rust `clients::beacon::types::Blob` carries
`kzg_commitment` and `blob` fields, used in
`src/clients/blobscan/types.rs`. -/
structure BeaconBlob where
  kzg_commitment : String
  blob : List Nat
  deriving DecidableEq, Repr

/-- Modelled from the spec: the columns sidecar response returned by
`get_columns`, convertible to a `BlobsResponse` whose `data` is the
list of blobs (§6: `get_blob_sidecars(slot) -> Option {data: [...]}`);
the conversion `BlobsResponse::from(columns)` is modelled as carrying
the blob list directly. -/
structure ColumnsResponse where
  data : List BeaconBlob
  deriving DecidableEq, Repr

/-- `BlobsResponse` as used at `src/slots_processor/mod.rs:228`:
`BlobsResponse::from(columns).data`. -/
structure BlobsResponse where
  data : List BeaconBlob
  deriving DecidableEq, Repr

/-- Modelled from the spec: `BlobsResponse::from(columns)` — the
columns-to-blobs reconstruction is not in the provided sources; the
spec (§6) presents the sidecar fetch as directly yielding
`{data: [{commitment, payload}]}`, so the conversion preserves `data`. -/
def BlobsResponse.ofColumns (c : ColumnsResponse) : BlobsResponse :=
  { data := c.data }

/-- Execution-layer transaction (`ethers::types::Transaction`): only
the fields read by the indexer are modelled (`hash`, `from`, `to`, and
the declared blob versioned hashes used by
`create_tx_hash_versioned_hashes_mapping`). -/
structure EthersTransaction where
  hash : Nat
  sender : Nat
  «to» : Option Nat
  blob_versioned_hashes : Option (List Nat)
  deriving DecidableEq, Repr

/-- Execution-layer block with transactions
(`ethers::types::Block<Transaction>`): `number` and `hash` are optional
in ethers, as exploited by the `try_from` conversions. -/
structure EthersBlock where
  number : Option Nat
  hash : Option Nat
  timestamp : Nat
  transactions : List EthersTransaction
  deriving DecidableEq, Repr

/-- Blobscan `Block` entity (`src/clients/blobscan/types.rs:12`). -/
structure Block where
  number : Nat
  hash : Nat
  timestamp : Nat
  slot : Nat
  proposer : String
  deriving DecidableEq, Repr

/-- Blobscan `Transaction` entity (`src/clients/blobscan/types.rs:21`). -/
structure Transaction where
  hash : Nat
  sender : Nat
  «to» : Option Nat
  block_number : Nat
  deriving DecidableEq, Repr

/-- Blobscan `Blob` entity (`src/clients/blobscan/types.rs:31`). -/
structure Blob where
  versioned_hash : Nat
  commitment : String
  data : List Nat
  tx_hash : Nat
  index : Nat
  deriving DecidableEq, Repr

/-- The atomic unit submitted downstream
(`src/clients/blobscan/types.rs:59`, assembled from the three
arguments of `blobscan_client.index`). -/
structure IndexRequest where
  block : Block
  transactions : List Transaction
  blobs : List Blob
  deriving DecidableEq, Repr

/-- `Block::try_from((&EthersBlock, u32, H256))`
(`src/clients/blobscan/types.rs:85`, extended with the proposer pubkey
as built at `src/slots_processor/mod.rs:196`): fails when the
execution block misses its `number` or `hash` field. -/
def Block.try_from (b : EthersBlock) (slot : Nat) (proposer : String) :
    Except String Block :=
  match b.number with
  | none => .error "Missing block number field in execution block"
  | some number =>
    match b.hash with
    | none => .error "Missing block hash field in execution block"
    | some hash =>
      .ok { number := number, hash := hash, timestamp := b.timestamp,
            slot := slot, proposer := proposer }

/-- `Transaction::try_from((&EthersTransaction, &EthersBlock))`
(`src/clients/blobscan/types.rs:106`): fails when the execution block
misses its `number` field. -/
def Transaction.try_from (tx : EthersTransaction) (b : EthersBlock) :
    Except String Transaction :=
  match b.number with
  | none => .error "Missing block number field in execution block"
  | some number =>
    .ok { hash := tx.hash, sender := tx.sender, «to» := tx.«to»,
          block_number := number }

/-- `From<(&BeaconBlob, &H256, usize, &H256)> for Blob`
(`src/clients/blobscan/types.rs:141`): builds a `Blob` entity from a
sidecar blob, the declared versioned hash, the per-transaction index
and the owning transaction hash. -/
def Blob.ofParts (blob_data : BeaconBlob) (versioned_hash : Nat)
    (index : Nat) (tx_hash : Nat) : Blob :=
  { tx_hash := tx_hash, index := index,
    commitment := blob_data.kzg_commitment, data := blob_data.blob,
    versioned_hash := versioned_hash }

/-- Modelled from the spec: `calculate_versioned_hash` of
`src/utils/web3.rs` is not in the provided sources; the spec (§3)
requires only a pure deterministic function of the commitment string,
modelled here as a base-256 fold of the character codes. -/
def calculate_versioned_hash (commitment : String) : Nat :=
  commitment.toList.foldl (fun acc c => acc * 256 + c.toNat) 0

/-- Modelled from the spec: `create_tx_hash_versioned_hashes_mapping`
of `src/slots_processor/helpers.rs` is not in the provided sources;
per §4.1 step 6 it builds, from each transaction's own blob-hash
field, the mapping from transaction hash to its ordered list of
declared versioned hashes (transactions declaring no blobs are
absent).  Modelled as an association list preserving block order. -/
def create_tx_hash_versioned_hashes_mapping (b : EthersBlock) :
    List (Nat × List Nat) :=
  b.transactions.filterMap fun tx =>
    tx.blob_versioned_hashes.map fun vhs => (tx.hash, vhs)

/-- Modelled from the spec: `create_versioned_hash_blob_mapping` of
`src/slots_processor/helpers.rs` is not in the provided sources; per
§4.1 step 11 it maps each sidecar blob's versioned hash (computed from
its commitment) to the blob.  Modelled as an association list. -/
def create_versioned_hash_blob_mapping (blobs : List BeaconBlob) :
    List (Nat × BeaconBlob) :=
  blobs.map fun blob => (calculate_versioned_hash blob.kzg_commitment, blob)

/-- Association-list lookup standing for `HashMap::get` on the
versioned-hash-to-blob mapping. -/
def lookup_blob (m : List (Nat × BeaconBlob)) (vh : Nat) :
    Option BeaconBlob :=
  (m.find? fun p => p.1 = vh).map fun p => p.2

/-- Modelled from the spec: the error type of
`src/slots_processor/error.rs` is not in the provided sources; the
constructors follow the error taxonomy (§7) and the concrete error
sites of `process_slot`: transported client errors, the
`with_context` integrity error for a missing execution block, the
`with_context` integrity error naming an unmatched blob
(`Sidecar not found for blob {i} ... from tx {tx_hash}`), and other
anyhow errors carried as messages. -/
inductive SlotError where
  | clientError (msg : String)
  | executionBlockNotFound (block_hash : Nat)
  | unmatchedBlob (index : Nat) (versioned_hash : Nat) (tx_hash : Nat)
  | other (msg : String)
  deriving DecidableEq, Repr

/-- Result of one `process_slot` call: `Ok(())`, `Err(e)`, or a panic
(the Rust `unwrap()` on `None` at `src/slots_processor/mod.rs:193`
aborts the process; it is modelled as a distinct outcome rather than
an error). -/
inductive Outcome where
  | ok
  | err (e : SlotError)
  | panic
  deriving DecidableEq, Repr

/-- Trace of one `process_slot` call: its outcome plus which clients
were actually called and what was submitted downstream. -/
structure SlotTrace where
  outcome : Outcome
  executionFetched : Bool := false
  validatorsFetched : Bool := false
  columnsFetched : Bool := false
  submitted : Option IndexRequest := none
  deriving DecidableEq, Repr

/-- Environment of client calls available to `process_slot`:
`beacon_client.get_block`, `provider.get_block_with_txs`,
`beacon_client.get_validators`, `beacon_client.get_columns` and
`blobscan_client.index`.  Each network call may fail (`Except.error`)
or report absence (`Option.none`), mirroring `Result<Option<_>>`. -/
structure ChainEnv where
  get_block : Nat → Except String (Option BeaconBlock)
  get_block_with_txs : Nat → Except String (Option EthersBlock)
  get_validators : Nat → Except String (Option (List Validator))
  get_columns : Nat → Except String (Option ColumnsResponse)
  index : IndexRequest → Except String Unit

/-- The inner loop of `src/slots_processor/mod.rs:231`: for each
declared versioned hash of one transaction, in order, look up the
sidecar blob; the first miss produces the `Sidecar not found` error
naming the index, versioned hash and transaction hash. -/
def build_tx_blobs (vh_map : List (Nat × BeaconBlob)) (tx_hash : Nat) :
    List Nat → Nat → Except SlotError (List Blob)
  | [], _ => .ok []
  | vh :: rest, i =>
    match lookup_blob vh_map vh with
    | none => .error (.unmatchedBlob i vh tx_hash)
    | some blob =>
      match build_tx_blobs vh_map tx_hash rest (i + 1) with
      | .error e => .error e
      | .ok blobs => .ok (Blob.ofParts blob vh i tx_hash :: blobs)

/-- The outer loop of `src/slots_processor/mod.rs:230`: iterate the
transaction-hash-to-versioned-hashes mapping, accumulating blob
entities; the first sidecar miss aborts with its error. -/
def build_blob_entities (vh_map : List (Nat × BeaconBlob)) :
    List (Nat × List Nat) → Except SlotError (List Blob)
  | [] => .ok []
  | (tx_hash, vhs) :: rest =>
    match build_tx_blobs vh_map tx_hash vhs 0 with
    | .error e => .error e
    | .ok blobs =>
      match build_blob_entities vh_map rest with
      | .error e => .error e
      | .ok blobs2 => .ok (blobs ++ blobs2)

/-- The blob-entity stage of `process_slot`
(`src/slots_processor/mod.rs:198-237`): when the beacon block
advertised KZG commitments, fetch the columns sidecar; an absent or
empty sidecar yields `.ok none` (the code's skip, `return Ok(())`),
otherwise build the blob entities from the versioned-hash mapping;
without commitments the blob list is empty (`vec![]`). -/
def fetch_blob_entities (env : ChainEnv) (slot : Nat)
    (has_kzg_blob_commitments : Bool)
    (tx_hash_to_versioned_hashes : List (Nat × List Nat)) :
    Except SlotError (Option (List Blob)) :=
  if has_kzg_blob_commitments then
    match env.get_columns slot with
    | .error msg => .error (.clientError msg)
    | .ok none => .ok none
    | .ok (some columns) =>
      if columns.data.isEmpty then .ok none
      else
        let blobs := (BlobsResponse.ofColumns columns).data
        let versioned_hash_to_blob := create_versioned_hash_blob_mapping blobs
        match build_blob_entities versioned_hash_to_blob
            tx_hash_to_versioned_hashes with
        | .error e => .error e
        | .ok blob_entities => .ok (some blob_entities)
  else .ok (some [])

/-- Steps of `process_slot` from the validator fetch onward
(`src/slots_processor/mod.rs:181-260`), split out so that each stage
of the sequential state machine is a separate definition.  Reached
only with a non-empty `transactions_entities`. -/
def process_slot_with_validators (env : ChainEnv) (slot : Nat)
    (has_kzg_blob_commitments : Bool) (execution_block : EthersBlock)
    (tx_hash_to_versioned_hashes : List (Nat × List Nat))
    (transactions_entities : List Transaction)
    (validators : List Validator) : SlotTrace :=
  match validators.find? fun validator => validator.slot = slot with
  | none =>
    -- `.unwrap()` on a failed find: the process aborts.
    { outcome := .panic, executionFetched := true,
      validatorsFetched := true }
  | some validator =>
    match Block.try_from execution_block slot validator.pubkey with
    | .error msg =>
      { outcome := .err (.other msg), executionFetched := true,
        validatorsFetched := true }
    | .ok block_entity =>
      match fetch_blob_entities env slot has_kzg_blob_commitments
          tx_hash_to_versioned_hashes with
      | .error e =>
        { outcome := .err e, executionFetched := true,
          validatorsFetched := true,
          columnsFetched := has_kzg_blob_commitments }
      | .ok none =>
        -- absent or empty columns sidecar: skip (`return Ok(())`).
        { outcome := .ok, executionFetched := true,
          validatorsFetched := true, columnsFetched := true }
      | .ok (some blob_entities) =>
        let request : IndexRequest :=
          { block := block_entity, transactions := transactions_entities,
            blobs := blob_entities }
        match env.index request with
        | .error msg =>
          { outcome := .err (.clientError msg), executionFetched := true,
            validatorsFetched := true,
            columnsFetched := has_kzg_blob_commitments,
            submitted := some request }
        | .ok _ =>
          { outcome := .ok, executionFetched := true,
            validatorsFetched := true,
            columnsFetched := has_kzg_blob_commitments,
            submitted := some request }

/-- Steps of `process_slot` from the execution-block fetch onward
(`src/slots_processor/mod.rs:120-260`). -/
def process_slot_with_payload (env : ChainEnv) (slot : Nat)
    (has_kzg_blob_commitments : Bool) (execution_block_hash : Nat) :
    SlotTrace :=
  match env.get_block_with_txs execution_block_hash with
  | .error msg =>
    { outcome := .err (.clientError msg), executionFetched := true }
  | .ok none =>
    { outcome := .err (.executionBlockNotFound execution_block_hash),
      executionFetched := true }
  | .ok (some execution_block) =>
    let tx_hash_to_versioned_hashes :=
      create_tx_hash_versioned_hashes_mapping execution_block
    match execution_block.transactions.mapM
        (fun tx => Transaction.try_from tx execution_block) with
    | .error msg =>
      { outcome := .err (.other msg), executionFetched := true }
    | .ok transactions_entities =>
      if transactions_entities.isEmpty then
        -- empty block: skip (`return Ok(())`).
        { outcome := .ok, executionFetched := true }
      else
        match env.get_validators (slot / SLOT_PER_EPOCH) with
        | .error msg =>
          { outcome := .err (.clientError msg), executionFetched := true }
        | .ok none =>
          -- no validators: skip (`return Ok(())`).
          { outcome := .ok, executionFetched := true,
            validatorsFetched := true }
        | .ok (some validators) =>
          process_slot_with_validators env slot has_kzg_blob_commitments
            execution_block tx_hash_to_versioned_hashes
            transactions_entities validators

/-- `SlotsProcessor::process_slot` (`src/slots_processor/mod.rs:70`),
as a function of the client environment and the slot, returning the
outcome together with the effect trace. -/
def process_slot (env : ChainEnv) (slot : Nat) : SlotTrace :=
  if slot = 0 then
    -- slot 0: skip, no client call at all.
    { outcome := .ok }
  else
    match env.get_block slot with
    | .error msg => { outcome := .err (.clientError msg) }
    | .ok none =>
      -- no beacon block: skip.
      { outcome := .ok }
    | .ok (some beacon_block) =>
      match beacon_block.message.body.execution_payload with
      | none =>
        -- no execution payload: skip.
        { outcome := .ok }
      | some execution_payload =>
        let has_kzg_blob_commitments :=
          match beacon_block.message.body.blob_kzg_commitments with
          | some commitments => !commitments.isEmpty
          | none => false
        process_slot_with_payload env slot has_kzg_blob_commitments
          execution_payload.block_hash

/-- The slot traversal of `process_slots`
(`src/slots_processor/mod.rs:49-54`): descending
(`(final_slot..initial_slot).rev()`) when `initial_slot > final_slot`,
ascending (`initial_slot..final_slot`) otherwise.  Both Rust ranges
are half-open. -/
def slots_to_visit (initial_slot final_slot : Nat) : List Nat :=
  if final_slot < initial_slot then
    (List.range' final_slot (initial_slot - final_slot)).reverse
  else
    List.range' initial_slot (final_slot - initial_slot)

/-- Result of `SlotsProcessor::process_slots`: `Ok(())`, the
`SlotsProcessorError::FailedSlotsProcessing` wrapper
(`src/slots_processor/mod.rs:58-63`) carrying the range bounds, the
failing slot and its error, or a propagated panic. -/
inductive SlotsOutcome where
  | ok
  | failedSlotsProcessing (initial_slot final_slot failed_slot : Nat)
      (error : SlotError)
  | panic
  deriving DecidableEq, Repr

/-- The slot loop of `process_slots` (`src/slots_processor/mod.rs:56`),
over an explicit list of slots and a per-slot outcome function: the
first erroneous slot is wrapped and returned, a panic propagates. -/
def run_slot_loop (f : Nat → Outcome) (initial_slot final_slot : Nat) :
    List Nat → SlotsOutcome
  | [] => .ok
  | current_slot :: rest =>
    match f current_slot with
    | .ok => run_slot_loop f initial_slot final_slot rest
    | .err e => .failedSlotsProcessing initial_slot final_slot current_slot e
    | .panic => .panic

/-- The slots on which `process_slot` is actually invoked by the loop:
every slot up to and including the first non-`Ok` one. -/
def attempted_slots (f : Nat → Outcome) : List Nat → List Nat
  | [] => []
  | current_slot :: rest =>
    match f current_slot with
    | .ok => current_slot :: attempted_slots f rest
    | _ => [current_slot]

/-- `SlotsProcessor::process_slots` (`src/slots_processor/mod.rs:44`). -/
def process_slots (env : ChainEnv) (initial_slot final_slot : Nat) :
    SlotsOutcome :=
  run_slot_loop (fun slot => (process_slot env slot).outcome)
    initial_slot final_slot (slots_to_visit initial_slot final_slot)

/-- Exit of one iteration of the driver loop in `src/indexer.rs:92`:
either the loop body completes and the loop continues into the next
polling iteration with an updated `current_slot`, or `run` returns an
error (terminating the whole indexer). -/
inductive DriverExit where
  | next (current_slot : Nat)
  | fatal (msg : String)
  deriving DecidableEq, Repr

/-- Digit accumulator for `parse_u32`. -/
def parse_u32_digits : List Char → Nat → Option Nat
  | [], acc => some acc
  | c :: rest, acc =>
    if 48 ≤ c.toNat ∧ c.toNat ≤ 57 then
      parse_u32_digits rest (acc * 10 + (c.toNat - 48))
    else none

/-- Model of Rust `str::parse::<u32>()` as used on the head slot at
`src/indexer.rs:124`: fails on an empty string or a non-digit
character (the `u32` overflow failure is not modelled; slot numbers
stay far below `2^32`). -/
def parse_u32 (s : String) : Option Nat :=
  match s.data with
  | [] => none
  | c :: rest => parse_u32_digits (c :: rest) 0

/-- One iteration of the driver loop (`src/indexer.rs:92-132`) as a
function of the (backoff-wrapped) head-fetch result, the
synchronizer's `run` (abstracted as a function of
`(current_slot, head_slot)`), and the current slot.  A head-fetch
error after backoff exhaustion returns `Err` (fatal); an absent head
block sleeps and polls again; a malformed head slot string fails the
`parse()?`; and an error from `synchronizer.run(...)?` is propagated
out of the loop by the `?` operator. -/
def driver_iteration (run : Nat → Nat → Except String Unit)
    (beacon_head_result : Except String (Option String))
    (current_slot : Nat) : DriverExit :=
  match beacon_head_result with
  | .error msg => .fatal msg
  | .ok none => .next current_slot
  | .ok (some slot_string) =>
    match parse_u32 slot_string with
    | none => .fatal "invalid digit found in string"
    | some head_slot =>
      match run current_slot head_slot with
      | .error msg => .fatal msg
      | .ok _ => .next head_slot

/-! Concrete fixtures: a slot-7 scenario with one blob-carrying
transaction and one plain transaction, plus variations exercising the
individual failure paths. -/

/-- Versioned hash declared by the blob transaction of the fixture,
matching the sidecar commitment `"c1"`. -/
def vhFixture : Nat := calculate_versioned_hash "c1"

/-- Fixture blob-carrying transaction. -/
def txBlobFixture : EthersTransaction :=
  { hash := 11, sender := 1, «to» := none,
    blob_versioned_hashes := some [vhFixture] }

/-- Fixture plain transaction (declares no blobs). -/
def txPlainFixture : EthersTransaction :=
  { hash := 12, sender := 2, «to» := some 3, blob_versioned_hashes := none }

/-- Fixture execution block with two transactions. -/
def ebFixture : EthersBlock :=
  { number := some 5, hash := some 50, timestamp := 9,
    transactions := [txBlobFixture, txPlainFixture] }

/-- Fixture execution block with no transactions (an empty block). -/
def ebEmptyFixture : EthersBlock :=
  { number := some 5, hash := some 50, timestamp := 9, transactions := [] }

/-- Fixture beacon block advertising one blob KZG commitment and an
execution payload pointing at `ebFixture`. -/
def bbFixture : BeaconBlock :=
  { message := { body := { execution_payload := some { block_hash := 100 },
                           blob_kzg_commitments := some ["c1"] } } }

/-- Fixture sidecar blob whose commitment matches the declared
versioned hash. -/
def blobFixture : BeaconBlob := { kzg_commitment := "c1", blob := [1, 2] }

/-- Fixture sidecar blob with a different commitment (its versioned
hash matches no declared hash). -/
def blobOtherFixture : BeaconBlob := { kzg_commitment := "c2", blob := [3] }

/-- Happy-path environment: slot 7 has `bbFixture`, the execution
block is found, the validator with duty slot 7 exists, the sidecar
matches, indexing succeeds. -/
def envIndexed : ChainEnv :=
  { get_block := fun s => if s = 7 then .ok (some bbFixture) else .ok none,
    get_block_with_txs := fun h =>
      if h = 100 then .ok (some ebFixture) else .ok none,
    get_validators := fun _ => .ok (some [{ pubkey := "pk", slot := 7 }]),
    get_columns := fun s =>
      if s = 7 then .ok (some { data := [blobFixture] }) else .ok none,
    index := fun _ => .ok () }

/-- The request `envIndexed` submits for slot 7. -/
def reqIndexed : IndexRequest :=
  { block := { number := 5, hash := 50, timestamp := 9, slot := 7,
               proposer := "pk" },
    transactions :=
      [{ hash := 11, sender := 1, «to» := none, block_number := 5 },
       { hash := 12, sender := 2, «to» := some 3, block_number := 5 }],
    blobs := [{ versioned_hash := vhFixture, commitment := "c1",
                data := [1, 2], tx_hash := 11, index := 0 }] }

/-- As `envIndexed`, but the validator set of the epoch contains no
validator whose duty slot is 7. -/
def envNoValidatorMatch : ChainEnv :=
  { envIndexed with get_validators := fun _ => .ok (some []) }

/-- As `envIndexed`, but the validator-set fetch reports absence. -/
def envNoValidators : ChainEnv :=
  { envIndexed with get_validators := fun _ => .ok none }

/-- As `envIndexed`, but the columns-sidecar fetch reports absence. -/
def envNoSidecar : ChainEnv :=
  { envIndexed with get_columns := fun _ => .ok none }

/-- As `envIndexed`, but the sidecar carries only a blob whose
versioned hash matches no declared hash. -/
def envUnmatchedSidecar : ChainEnv :=
  { envIndexed with
    get_columns := fun _ => .ok (some { data := [blobOtherFixture] }) }

/-- As `envIndexed`, but the execution block fetched for slot 7 has no
transactions. -/
def envEmptyBlock : ChainEnv :=
  { envIndexed with
    get_block_with_txs := fun h =>
      if h = 100 then .ok (some ebEmptyFixture) else .ok none }

/-- Beacon block for the missing-execution-block scenario: payload
hash 200, no commitments. -/
def bbNoExec : BeaconBlock :=
  { message := { body := { execution_payload := some { block_hash := 200 },
                           blob_kzg_commitments := none } } }

/-- Environment in which only slot 3 has a beacon block and its
execution block is not found: slot 3 fails with
`executionBlockNotFound`, every other slot is skipped. -/
def envMissingExecution : ChainEnv :=
  { get_block := fun s => if s = 3 then .ok (some bbNoExec) else .ok none,
    get_block_with_txs := fun _ => .ok none,
    get_validators := fun _ => .ok none,
    get_columns := fun _ => .ok none,
    index := fun _ => .ok () }

/-- A synchronizer `run` that always reports an aggregate error, for
exercising the driver loop. -/
def runAlwaysFailing : Nat → Nat → Except String Unit :=
  fun _ _ => .error "chunk failure"

/-! Theorems. -/

/-- Claim C8: for slot 0, and for every slot for which the beacon
client returns no beacon block, `process_slot` returns a skip
(`Ok(())`) and issues zero execution-client calls and zero index
submissions. -/
theorem process_slot_skips_slot_zero_and_missing_block :
    (∀ env : ChainEnv, process_slot env 0 =
      { outcome := .ok, executionFetched := false, validatorsFetched := false,
        columnsFetched := false, submitted := none }) ∧
    (∀ (env : ChainEnv) (slot : Nat), env.get_block slot = .ok none →
      process_slot env slot =
        { outcome := .ok, executionFetched := false,
          validatorsFetched := false, columnsFetched := false,
          submitted := none }) := by
  constructor
  · intro env
    simp [process_slot]
  · intro env slot h
    by_cases h0 : slot = 0
    · simp [process_slot, h0]
    · simp [process_slot, h0, h]

/-- Witness for C8: `envIndexed` has no beacon block at slot 8, and
`process_slot` skips it without touching the execution client. -/
theorem process_slot_skips_slot_zero_and_missing_block_witness :
    envIndexed.get_block 8 = .ok none ∧
    process_slot envIndexed 8 =
      { outcome := .ok, executionFetched := false, validatorsFetched := false,
        columnsFetched := false, submitted := none } :=
  ⟨rfl, process_slot_skips_slot_zero_and_missing_block.2 envIndexed 8 rfl⟩

/-- Claim C5: `process_slots (a, b)` and `process_slots (b, a)` visit
the same set of slots, one traversal being the exact reverse of the
other, and `process_slots (a, a)` visits no slot and returns `Ok`. -/
theorem process_slots_direction_reversal :
    (∀ a b : Nat, slots_to_visit a b = (slots_to_visit b a).reverse) ∧
    (∀ a b s : Nat, s ∈ slots_to_visit a b ↔ s ∈ slots_to_visit b a) ∧
    (∀ (env : ChainEnv) (a : Nat),
      slots_to_visit a a = [] ∧ process_slots env a a = .ok) := by
  have hrev : ∀ a b : Nat, slots_to_visit a b = (slots_to_visit b a).reverse := by
    intro a b
    unfold slots_to_visit
    rcases Nat.lt_trichotomy a b with h | h | h
    · rw [if_neg (by omega), if_pos h, List.reverse_reverse]
    · subst h
      simp
    · rw [if_pos h, if_neg (by omega)]
  have hempty : ∀ a : Nat, slots_to_visit a a = [] := by
    intro a
    unfold slots_to_visit
    simp
  refine ⟨hrev, ?_, ?_⟩
  · intro a b s
    rw [hrev a b, List.mem_reverse]
  · intro env a
    refine ⟨hempty a, ?_⟩
    unfold process_slots
    rw [hempty a]
    rfl

/-- Claim C1 (code behavior at the failing input): when the fetched
validator set contains no validator whose duty slot equals the
processed slot, `process_slot` panics (the `.unwrap()` at
`src/slots_processor/mod.rs:193` aborts the process) instead of
returning a recoverable `ValidatorNotFound` error. -/
theorem process_slot_panics_on_validator_miss :
    process_slot envNoValidatorMatch 7 =
      { outcome := .panic, executionFetched := true, validatorsFetched := true,
        columnsFetched := false, submitted := none } := rfl

/-- Counterexample to claim C4: an aggregate error from
`synchronizer.run` is propagated by the `?` operator at
`src/indexer.rs:126`, terminating the driver loop (`fatal`), not
continuing into the next polling iteration (`next`). -/
theorem driver_run_error_terminates_counterexample :
    driver_iteration runAlwaysFailing (.ok (some "42")) 7 =
      .fatal "chunk failure" ∧
    driver_iteration runAlwaysFailing (.ok (some "42")) 7 ≠ .next 42 ∧
    driver_iteration runAlwaysFailing (.ok (some "42")) 7 ≠ .next 7 := by
  refine ⟨rfl, ?_, ?_⟩ <;> simp [driver_iteration, runAlwaysFailing, parse_u32,
    parse_u32_digits]

/-- Claim C4 as amended: when the head fetch succeeds, the head slot
parses, and `run (current_slot, head_slot)` returns an aggregate
error, the driver-loop iteration propagates that error and terminates
the loop. -/
theorem driver_iteration_propagates_run_error
    (run : Nat → Nat → Except String Unit)
    (current_slot head_slot : Nat) (slot_string msg : String)
    (hparse : parse_u32 slot_string = some head_slot)
    (hrun : run current_slot head_slot = .error msg) :
    driver_iteration run (.ok (some slot_string)) current_slot =
      .fatal msg := by
  simp [driver_iteration, hparse, hrun]

/-- Witness for the amended C4. -/
theorem driver_iteration_propagates_run_error_witness :
    parse_u32 "42" = some 42 ∧
    runAlwaysFailing 7 42 = .error "chunk failure" ∧
    driver_iteration runAlwaysFailing (.ok (some "42")) 7 =
      .fatal "chunk failure" :=
  ⟨rfl, rfl,
   driver_iteration_propagates_run_error runAlwaysFailing 7 42 "42"
     "chunk failure" rfl rfl⟩

/-- Counterexample to claim C2: at slot 7 of `envNoSidecar` the beacon
block advertises a non-empty commitment list and the sidecar fetch
returns absence, yet `process_slot` returns `Ok` (a skip, the claimed
`Error(MissingSidecars)` is never produced) and submits nothing. -/
theorem missing_sidecar_skip_counterexample :
    bbFixture.message.body.blob_kzg_commitments = some ["c1"] ∧
    envNoSidecar.get_block 7 = .ok (some bbFixture) ∧
    envNoSidecar.get_columns 7 = .ok none ∧
    (process_slot envNoSidecar 7).outcome = .ok ∧
    (process_slot envNoSidecar 7).submitted = none :=
  ⟨rfl, rfl, rfl, rfl, rfl⟩

/-- Unfolding `process_slot` down to `process_slot_with_payload` when
the slot is non-zero, a beacon block exists and it has an execution
payload. -/
theorem process_slot_eq_with_payload (env : ChainEnv) (slot : Nat)
    (bb : BeaconBlock) (pl : ExecutionPayload)
    (h0 : slot ≠ 0) (hgb : env.get_block slot = .ok (some bb))
    (hpl : bb.message.body.execution_payload = some pl) :
    process_slot env slot =
      process_slot_with_payload env slot
        (match bb.message.body.blob_kzg_commitments with
         | some commitments => !commitments.isEmpty
         | none => false)
        pl.block_hash := by
  simp [process_slot, h0, hgb, hpl]

/-- `Transaction::try_from` mapped over the whole transaction list
succeeds when the execution block carries its number, producing one
entity per transaction with that number. -/
theorem mapM_try_from_eq (b : EthersBlock) (n : Nat) (hn : b.number = some n)
    (l : List EthersTransaction) :
    l.mapM (fun tx => Transaction.try_from tx b) =
      .ok (l.map fun tx =>
        { hash := tx.hash, sender := tx.sender, «to» := tx.«to»,
          block_number := n }) := by
  induction l with
  | nil => rfl
  | cons tx rest ih =>
    rw [List.mapM_cons, ih]
    simp [Transaction.try_from, hn]
    rfl

/-- Unfolding `process_slot_with_payload` down to
`process_slot_with_validators` when the execution block is found,
carries its number, has at least one transaction, and the validator
set is present. -/
theorem with_payload_eq_with_validators (env : ChainEnv) (slot n : Nat)
    (kzg : Bool) (bh : Nat) (eb : EthersBlock) (vals : List Validator)
    (heb : env.get_block_with_txs bh = .ok (some eb))
    (hn : eb.number = some n) (htx : eb.transactions ≠ [])
    (hv : env.get_validators (slot / SLOT_PER_EPOCH) = .ok (some vals)) :
    process_slot_with_payload env slot kzg bh =
      process_slot_with_validators env slot kzg eb
        (create_tx_hash_versioned_hashes_mapping eb)
        (eb.transactions.map fun tx =>
          { hash := tx.hash, sender := tx.sender, «to» := tx.«to»,
            block_number := n })
        vals := by
  obtain ⟨tx0, rest, htx'⟩ := List.exists_cons_of_ne_nil htx
  unfold process_slot_with_payload
  rw [heb]
  simp only [mapM_try_from_eq eb n hn]
  rw [htx']
  simp [hv]

/-- `process_slot_with_payload` skips (returns `Ok` without touching
the columns sidecar or submitting anything) when the validator-set
fetch reports absence. -/
theorem with_payload_skips_on_absent_validators (env : ChainEnv)
    (slot n : Nat) (kzg : Bool) (bh : Nat) (eb : EthersBlock)
    (heb : env.get_block_with_txs bh = .ok (some eb))
    (hn : eb.number = some n) (htx : eb.transactions ≠ [])
    (hv : env.get_validators (slot / SLOT_PER_EPOCH) = .ok none) :
    process_slot_with_payload env slot kzg bh =
      { outcome := .ok, executionFetched := true, validatorsFetched := true,
        columnsFetched := false, submitted := none } := by
  obtain ⟨tx0, rest, htx'⟩ := List.exists_cons_of_ne_nil htx
  unfold process_slot_with_payload
  rw [heb]
  simp only [mapM_try_from_eq eb n hn]
  rw [htx']
  simp [hv]

/-- `Block::try_from` succeeds exactly when the execution block
carries its number and hash. -/
theorem Block_try_from_ok (eb : EthersBlock) (slot n hsh : Nat) (pk : String)
    (hn : eb.number = some n) (hh : eb.hash = some hsh) :
    Block.try_from eb slot pk =
      .ok { number := n, hash := hsh, timestamp := eb.timestamp,
            slot := slot, proposer := pk } := by
  simp [Block.try_from, hn, hh]

/-- The blob stage reports "no sidecar" when commitments were
advertised and the columns fetch returns absence or empty data. -/
theorem fetch_blob_entities_none (env : ChainEnv) (slot : Nat)
    (m : List (Nat × List Nat))
    (hcols : env.get_columns slot = .ok none ∨
      ∃ columns, env.get_columns slot = .ok (some columns) ∧
        columns.data = []) :
    fetch_blob_entities env slot true m = .ok none := by
  rcases hcols with h | ⟨columns, h, hdata⟩
  · simp [fetch_blob_entities, h]
  · simp [fetch_blob_entities, h, hdata]

/-- `process_slot_with_validators` skips with nothing submitted when
a validator is found, the block entity builds, and the blob stage
reports "no sidecar". -/
theorem with_validators_skips_on_no_sidecar (env : ChainEnv) (slot : Nat)
    (kzg : Bool) (eb : EthersBlock) (m : List (Nat × List Nat))
    (txs : List Transaction) (vals : List Validator) (v : Validator)
    (blk : Block)
    (hfind : vals.find? (fun validator => validator.slot = slot) = some v)
    (hbt : Block.try_from eb slot v.pubkey = .ok blk)
    (hfb : fetch_blob_entities env slot kzg m = .ok none) :
    process_slot_with_validators env slot kzg eb m txs vals =
      { outcome := .ok, executionFetched := true, validatorsFetched := true,
        columnsFetched := true, submitted := none } := by
  simp [process_slot_with_validators, hfind, hbt, hfb]

/-- Claim C2 as amended: for every slot whose beacon block advertises
a non-empty list of blob KZG commitments, if the sidecar fetch
returns absence or an empty sidecar list then `process_slot` returns
`Ok` — a skip, with nothing submitted downstream — not an error. -/
theorem process_slot_skips_on_missing_or_empty_sidecar
    (env : ChainEnv) (slot n hsh : Nat) (bb : BeaconBlock)
    (pl : ExecutionPayload) (cs : List String) (eb : EthersBlock)
    (vals : List Validator) (v : Validator)
    (h0 : slot ≠ 0)
    (hgb : env.get_block slot = .ok (some bb))
    (hpl : bb.message.body.execution_payload = some pl)
    (hcs : bb.message.body.blob_kzg_commitments = some cs)
    (hcs' : cs ≠ [])
    (heb : env.get_block_with_txs pl.block_hash = .ok (some eb))
    (hn : eb.number = some n) (hh : eb.hash = some hsh)
    (htx : eb.transactions ≠ [])
    (hv : env.get_validators (slot / SLOT_PER_EPOCH) = .ok (some vals))
    (hfind : vals.find? (fun validator => validator.slot = slot) = some v)
    (hcols : env.get_columns slot = .ok none ∨
      ∃ columns, env.get_columns slot = .ok (some columns) ∧
        columns.data = []) :
    process_slot env slot =
      { outcome := .ok, executionFetched := true, validatorsFetched := true,
        columnsFetched := true, submitted := none } := by
  obtain ⟨c0, cs0, rfl⟩ := List.exists_cons_of_ne_nil hcs'
  rw [process_slot_eq_with_payload env slot bb pl h0 hgb hpl, hcs]
  rw [with_payload_eq_with_validators env slot n _ pl.block_hash eb vals heb
    hn htx hv]
  exact with_validators_skips_on_no_sidecar env slot _ eb _ _ vals v _ hfind
    (Block_try_from_ok eb slot n hsh v.pubkey hn hh)
    (fetch_blob_entities_none env slot _ hcols)

/-- Witness for the amended C2: `envNoSidecar` advertises one
commitment at slot 7 and its columns fetch returns absence;
`process_slot` skips. -/
theorem process_slot_skips_on_missing_or_empty_sidecar_witness :
    envNoSidecar.get_columns 7 = .ok none ∧
    process_slot envNoSidecar 7 =
      { outcome := .ok, executionFetched := true, validatorsFetched := true,
        columnsFetched := true, submitted := none } :=
  ⟨rfl,
   process_slot_skips_on_missing_or_empty_sidecar envNoSidecar 7 5 50
     bbFixture ⟨100⟩ ["c1"] ebFixture [⟨"pk", 7⟩] ⟨"pk", 7⟩
     (by decide) rfl rfl rfl (by decide) rfl rfl rfl (by decide) rfl rfl
     (Or.inl rfl)⟩

/-- Claim C10: when the validator-set fetch for the slot's epoch
returns absence, `process_slot` returns `Ok` (a skip): no sidecar
fetch is performed and nothing is submitted downstream. -/
theorem process_slot_skips_on_absent_validator_set
    (env : ChainEnv) (slot n : Nat) (bb : BeaconBlock)
    (pl : ExecutionPayload) (eb : EthersBlock)
    (h0 : slot ≠ 0)
    (hgb : env.get_block slot = .ok (some bb))
    (hpl : bb.message.body.execution_payload = some pl)
    (heb : env.get_block_with_txs pl.block_hash = .ok (some eb))
    (hn : eb.number = some n)
    (htx : eb.transactions ≠ [])
    (hv : env.get_validators (slot / SLOT_PER_EPOCH) = .ok none) :
    process_slot env slot =
      { outcome := .ok, executionFetched := true, validatorsFetched := true,
        columnsFetched := false, submitted := none } := by
  rw [process_slot_eq_with_payload env slot bb pl h0 hgb hpl]
  exact with_payload_skips_on_absent_validators env slot n _ pl.block_hash eb
    heb hn htx hv

/-- Witness for C10: `envNoValidators` reports an absent validator
set at slot 7 and `process_slot` skips without a sidecar fetch. -/
theorem process_slot_skips_on_absent_validator_set_witness :
    envNoValidators.get_validators (7 / SLOT_PER_EPOCH) = .ok none ∧
    process_slot envNoValidators 7 =
      { outcome := .ok, executionFetched := true, validatorsFetched := true,
        columnsFetched := false, submitted := none } :=
  ⟨rfl,
   process_slot_skips_on_absent_validator_set envNoValidators 7 5 bbFixture
     ⟨100⟩ ebFixture (by decide) rfl rfl rfl rfl (by decide) rfl⟩

/-- The slot loop stops at the first failing slot: every slot before
it is processed, the failure is wrapped with the range bounds, and no
later slot is attempted. -/
theorem run_slot_loop_first_failure (f : Nat → Outcome)
    (initial_slot final_slot s0 : Nat) (e : SlotError) (l1 l2 : List Nat)
    (hok : ∀ s ∈ l1, f s = .ok) (herr : f s0 = .err e) :
    run_slot_loop f initial_slot final_slot (l1 ++ s0 :: l2) =
      .failedSlotsProcessing initial_slot final_slot s0 e ∧
    attempted_slots f (l1 ++ s0 :: l2) = l1 ++ [s0] := by
  induction l1 with
  | nil =>
    constructor
    · simp [run_slot_loop, herr]
    · simp [attempted_slots, herr]
  | cons a rest ih =>
    have ha : f a = .ok := hok a (by simp)
    have ih' := ih fun s hs => hok s (by simp [hs])
    constructor
    · simp only [List.cons_append, run_slot_loop, ha]
      exact ih'.1
    · simp only [List.cons_append, attempted_slots, ha, List.append_eq]
      rw [ih'.2]

/-- Claim C6: if some slot of the range fails, `process_slots` stops
at the first failing slot in traversal order, attempts no later slot,
and returns `FailedSlotsProcessing` wrapping the range bounds, the
failing slot and its error. -/
theorem process_slots_stops_at_first_failure (env : ChainEnv)
    (initial_slot final_slot s0 : Nat) (e : SlotError) (l1 l2 : List Nat)
    (hsplit : slots_to_visit initial_slot final_slot = l1 ++ s0 :: l2)
    (hok : ∀ s ∈ l1, (process_slot env s).outcome = .ok)
    (herr : (process_slot env s0).outcome = .err e) :
    process_slots env initial_slot final_slot =
      .failedSlotsProcessing initial_slot final_slot s0 e ∧
    attempted_slots (fun s => (process_slot env s).outcome)
      (slots_to_visit initial_slot final_slot) = l1 ++ [s0] := by
  unfold process_slots
  rw [hsplit]
  exact run_slot_loop_first_failure _ initial_slot final_slot s0 e l1 l2
    hok herr

/-- Witness for C6: in `envMissingExecution` the range `[2, 6)` visits
`[2, 3, 4, 5]`; slot 2 is skipped, slot 3 fails with
`executionBlockNotFound`, and slots 4 and 5 are never attempted. -/
theorem process_slots_stops_at_first_failure_witness :
    process_slots envMissingExecution 2 6 =
      .failedSlotsProcessing 2 6 3 (.executionBlockNotFound 200) ∧
    attempted_slots (fun s => (process_slot envMissingExecution s).outcome)
      (slots_to_visit 2 6) = [2, 3] :=
  process_slots_stops_at_first_failure envMissingExecution 2 6 3
    (.executionBlockNotFound 200) [2] [4, 5] rfl
    (fun s hs => by rw [List.mem_singleton] at hs; subst hs; rfl) rfl

/-- If `process_slot_with_validators` submitted a request, that
request carries exactly the given transaction entities and a block
entity built by `Block::try_from` from the execution block. -/
theorem with_validators_submitted (env : ChainEnv) (slot : Nat) (kzg : Bool)
    (eb : EthersBlock) (m : List (Nat × List Nat)) (txs : List Transaction)
    (vals : List Validator) (req : IndexRequest)
    (h : (process_slot_with_validators env slot kzg eb m txs vals).submitted =
      some req) :
    req.transactions = txs ∧
    ∃ pk, Block.try_from eb slot pk = .ok req.block := by
  unfold process_slot_with_validators at h
  cases hfind : vals.find? (fun validator => validator.slot = slot) with
  | none => simp only [hfind] at h; simp at h
  | some v =>
    simp only [hfind] at h
    cases hbt : Block.try_from eb slot v.pubkey with
    | error msg => simp only [hbt] at h; simp at h
    | ok blk =>
      simp only [hbt] at h
      cases hfb : fetch_blob_entities env slot kzg m with
      | error e => simp only [hfb] at h; simp at h
      | ok ob =>
        simp only [hfb] at h
        cases ob with
        | none => simp at h
        | some blobs =>
          simp only at h
          cases hidx : env.index
              { block := blk, transactions := txs, blobs := blobs } with
          | error msg =>
            simp only [hidx, Option.some.injEq] at h
            subst h
            exact ⟨rfl, v.pubkey, hbt⟩
          | ok u =>
            simp only [hidx, Option.some.injEq] at h
            subst h
            exact ⟨rfl, v.pubkey, hbt⟩

/-- If `process_slot_with_payload` submitted a request, the execution
block was found, every transaction mapped to an entity, the entity
list is non-empty and it is the request's transaction list, and the
request's block entity was built from that execution block. -/
theorem with_payload_submitted (env : ChainEnv) (slot : Nat) (kzg : Bool)
    (bh : Nat) (req : IndexRequest)
    (h : (process_slot_with_payload env slot kzg bh).submitted = some req) :
    ∃ eb txs, env.get_block_with_txs bh = .ok (some eb) ∧
      eb.transactions.mapM (fun tx => Transaction.try_from tx eb) = .ok txs ∧
      txs ≠ [] ∧ req.transactions = txs ∧
      ∃ pk, Block.try_from eb slot pk = .ok req.block := by
  unfold process_slot_with_payload at h
  cases hgbt : env.get_block_with_txs bh with
  | error msg => simp only [hgbt] at h; simp at h
  | ok oeb =>
    simp only [hgbt] at h
    cases oeb with
    | none => simp at h
    | some eb =>
      simp only at h
      cases hmm : eb.transactions.mapM
          (fun tx => Transaction.try_from tx eb) with
      | error msg => simp only [hmm] at h; simp at h
      | ok txs =>
        simp only [hmm] at h
        by_cases hemp : txs.isEmpty
        · simp [hemp] at h
        · simp only [hemp, Bool.false_eq_true, if_false] at h
          cases hval : env.get_validators (slot / SLOT_PER_EPOCH) with
          | error msg => simp only [hval] at h; simp at h
          | ok ovals =>
            simp only [hval] at h
            cases ovals with
            | none => simp at h
            | some vals =>
              simp only at h
              obtain ⟨h1, h2⟩ := with_validators_submitted env slot kzg eb
                (create_tx_hash_versioned_hashes_mapping eb) txs vals req h
              exact ⟨eb, txs, rfl, hmm,
                fun hnil => hemp (by rw [hnil]; rfl), h1, h2⟩

/-- If `process_slot` submitted a request, there is an execution block
from which every transaction entity was mapped (a non-empty list, the
request's transaction list) and from which the request's block entity
was built. -/
theorem process_slot_submitted (env : ChainEnv) (slot : Nat)
    (req : IndexRequest)
    (h : (process_slot env slot).submitted = some req) :
    ∃ eb txs,
      eb.transactions.mapM (fun tx => Transaction.try_from tx eb) = .ok txs ∧
      txs ≠ [] ∧ req.transactions = txs ∧
      ∃ pk, Block.try_from eb slot pk = .ok req.block := by
  unfold process_slot at h
  by_cases h0 : slot = 0
  · simp [h0] at h
  · simp only [h0, if_false] at h
    cases hgb : env.get_block slot with
    | error msg => simp only [hgb] at h; simp at h
    | ok obb =>
      simp only [hgb] at h
      cases obb with
      | none => simp at h
      | some bb =>
        simp only at h
        cases hpl : bb.message.body.execution_payload with
        | none => simp only [hpl] at h; simp at h
        | some pl =>
          simp only [hpl] at h
          obtain ⟨eb, txs, _, hmm, hne, h1, h2⟩ :=
            with_payload_submitted env slot _ pl.block_hash req h
          exact ⟨eb, txs, hmm, hne, h1, h2⟩

/-- Claim C7: an `IndexRequest` is submitted only when its transaction
list is non-empty, and a slot whose execution block maps to zero
`Transaction` entities is skipped (`Ok`) with no index submission. -/
theorem index_request_only_for_nonempty_transactions :
    (∀ (env : ChainEnv) (slot : Nat) (req : IndexRequest),
      (process_slot env slot).submitted = some req →
        req.transactions ≠ []) ∧
    (∀ (env : ChainEnv) (slot : Nat) (bb : BeaconBlock)
      (pl : ExecutionPayload) (eb : EthersBlock),
      slot ≠ 0 → env.get_block slot = .ok (some bb) →
      bb.message.body.execution_payload = some pl →
      env.get_block_with_txs pl.block_hash = .ok (some eb) →
      eb.transactions = [] →
      process_slot env slot =
        { outcome := .ok, executionFetched := true,
          validatorsFetched := false, columnsFetched := false,
          submitted := none }) := by
  constructor
  · intro env slot req h
    obtain ⟨eb, txs, hmm, hne, h1, h2⟩ := process_slot_submitted env slot req h
    rw [h1]
    exact hne
  · intro env slot bb pl eb h0 hgb hpl heb htx
    rw [process_slot_eq_with_payload env slot bb pl h0 hgb hpl]
    unfold process_slot_with_payload
    rw [heb]
    simp only [htx]
    rfl

/-- Witness for C7: `envIndexed` submits a request with two
transactions at slot 7, and `envEmptyBlock` (same slot, empty
execution block) is skipped with nothing submitted. -/
theorem index_request_only_for_nonempty_transactions_witness :
    (process_slot envIndexed 7).submitted = some reqIndexed ∧
    reqIndexed.transactions ≠ [] ∧
    process_slot envEmptyBlock 7 =
      { outcome := .ok, executionFetched := true, validatorsFetched := false,
        columnsFetched := false, submitted := none } :=
  ⟨rfl,
   index_request_only_for_nonempty_transactions.1 envIndexed 7 reqIndexed rfl,
   index_request_only_for_nonempty_transactions.2 envEmptyBlock 7 bbFixture
     ⟨100⟩ ebEmptyFixture (by decide) rfl rfl rfl rfl⟩

/-- Membership form of the transaction mapping: every entity produced
by a successful `Transaction::try_from` pass carries the execution
block's number. -/
theorem mapM_try_from_mem (b : EthersBlock) (l : List EthersTransaction)
    (txs : List Transaction)
    (h : l.mapM (fun tx => Transaction.try_from tx b) = .ok txs) :
    ∀ t ∈ txs, ∃ n, b.number = some n ∧ t.block_number = n := by
  intro t ht
  cases hn : b.number with
  | none =>
    cases l with
    | nil =>
      have h' : ([] : List Transaction) = txs := Except.ok.inj h
      subst h'
      simp at ht
    | cons tx rest =>
      rw [List.mapM_cons] at h
      simp only [Transaction.try_from, hn] at h
      exact Except.noConfusion h
  | some n =>
    rw [mapM_try_from_eq b n hn] at h
    have h' := Except.ok.inj h
    subst h'
    obtain ⟨tx, htx, rfl⟩ := List.mem_map.mp ht
    exact ⟨n, rfl, rfl⟩

/-- A successful `Block::try_from` copies the execution block's
number into the `Block` entity. -/
theorem Block_try_from_number (eb : EthersBlock) (slot : Nat) (pk : String)
    (blk : Block) (h : Block.try_from eb slot pk = .ok blk) :
    eb.number = some blk.number := by
  unfold Block.try_from at h
  cases hn : eb.number with
  | none =>
    simp only [hn] at h
    exact Except.noConfusion h
  | some n =>
    simp only [hn] at h
    cases hh : eb.hash with
    | none =>
      simp only [hh] at h
      exact Except.noConfusion h
    | some hsh =>
      simp only [hh, Except.ok.injEq] at h
      rw [← h]

/-- Claim C9: in every submitted `IndexRequest`, every `Transaction`
entity's `block_number` equals the `Block` entity's `number` (both
copied from the same fetched execution block). -/
theorem transactions_block_number_matches_block (env : ChainEnv)
    (slot : Nat) (req : IndexRequest)
    (h : (process_slot env slot).submitted = some req) :
    ∀ t ∈ req.transactions, t.block_number = req.block.number := by
  obtain ⟨eb, txs, hmm, hne, h1, pk, h2⟩ :=
    process_slot_submitted env slot req h
  intro t ht
  rw [h1] at ht
  obtain ⟨n, hn, hbn⟩ := mapM_try_from_mem eb eb.transactions txs hmm t ht
  have hblkn := Block_try_from_number eb slot pk req.block h2
  rw [hn] at hblkn
  rw [hbn]
  exact Option.some.inj hblkn

/-- Witness for C9: the first transaction of the request submitted by
`envIndexed` at slot 7 carries the block's number 5. -/
theorem transactions_block_number_matches_block_witness :
    (process_slot envIndexed 7).submitted = some reqIndexed ∧
    ({ hash := 11, sender := 1, «to» := none, block_number := 5 } :
      Transaction).block_number = reqIndexed.block.number :=
  ⟨rfl,
   transactions_block_number_matches_block envIndexed 7 reqIndexed rfl _
     (by simp [reqIndexed])⟩

/-- A successful per-transaction blob build means every declared
versioned hash of that transaction has a sidecar entry. -/
theorem build_tx_blobs_ok_all_matched (vh_map : List (Nat × BeaconBlob))
    (tx_hash : Nat) (vhs : List Nat) (i : Nat) (blobs : List Blob)
    (h : build_tx_blobs vh_map tx_hash vhs i = .ok blobs) :
    ∀ j vh, vhs.get? j = some vh → lookup_blob vh_map vh ≠ none := by
  induction vhs generalizing i blobs with
  | nil =>
    intro j vh hj
    simp at hj
  | cons vh0 rest ih =>
    intro j vh hj hnone
    unfold build_tx_blobs at h
    cases hl : lookup_blob vh_map vh0 with
    | none =>
      simp only [hl] at h
      exact Except.noConfusion h
    | some blob =>
      simp only [hl] at h
      cases hrest : build_tx_blobs vh_map tx_hash rest (i + 1) with
      | error e =>
        simp only [hrest] at h
        exact Except.noConfusion h
      | ok bs =>
        cases j with
        | zero =>
          simp only [List.get?_cons_zero, Option.some.injEq] at hj
          subst hj
          rw [hl] at hnone
          exact Option.noConfusion hnone
        | succ j' =>
          simp only [List.get?_cons_succ] at hj
          exact ih (i + 1) bs hrest j' vh hj hnone

/-- A failing per-transaction blob build produces exactly the
`Sidecar not found` error of the first declared hash that has no
sidecar entry, carrying its enumeration index. -/
theorem build_tx_blobs_error_unmatched (vh_map : List (Nat × BeaconBlob))
    (tx_hash : Nat) (vhs : List Nat) (i : Nat) (e : SlotError)
    (h : build_tx_blobs vh_map tx_hash vhs i = .error e) :
    ∃ j vh, vhs.get? j = some vh ∧ lookup_blob vh_map vh = none ∧
      e = .unmatchedBlob (i + j) vh tx_hash := by
  induction vhs generalizing i with
  | nil => exact Except.noConfusion h
  | cons vh0 rest ih =>
    unfold build_tx_blobs at h
    cases hl : lookup_blob vh_map vh0 with
    | none =>
      simp only [hl, Except.error.injEq] at h
      exact ⟨0, vh0, rfl, hl, by rw [← h, Nat.add_zero]⟩
    | some blob =>
      simp only [hl] at h
      cases hrest : build_tx_blobs vh_map tx_hash rest (i + 1) with
      | error e' =>
        simp only [hrest, Except.error.injEq] at h
        subst h
        obtain ⟨j, vh, hj, hlnone, he⟩ := ih (i + 1) hrest
        refine ⟨j + 1, vh, by simpa using hj, hlnone, ?_⟩
        rw [he]
        congr 1
        omega
      | ok bs =>
        simp only [hrest] at h
        exact Except.noConfusion h

/-- If some declared `(tx_hash, versioned_hash)` pair has no sidecar
entry, the blob-entity build fails with an `unmatchedBlob` error
naming a genuinely unmatched pair (transaction hash and index). -/
theorem build_blob_entities_error_of_unmatched
    (vh_map : List (Nat × BeaconBlob)) (m : List (Nat × List Nat))
    (hunm : ∃ tx vhs i vh, (tx, vhs) ∈ m ∧ vhs.get? i = some vh ∧
      lookup_blob vh_map vh = none) :
    ∃ tx i vh vhs, (tx, vhs) ∈ m ∧ vhs.get? i = some vh ∧
      lookup_blob vh_map vh = none ∧
      build_blob_entities vh_map m = .error (.unmatchedBlob i vh tx) := by
  induction m with
  | nil =>
    obtain ⟨tx, vhs, i, vh, hmem, _, _⟩ := hunm
    simp at hmem
  | cons p rest ih =>
    obtain ⟨ptx, pvhs⟩ := p
    cases hb : build_tx_blobs vh_map ptx pvhs 0 with
    | error e =>
      obtain ⟨j, vh, hj, hln, he⟩ :=
        build_tx_blobs_error_unmatched vh_map ptx pvhs 0 e hb
      refine ⟨ptx, j, vh, pvhs, List.mem_cons_self _ _, hj, hln, ?_⟩
      rw [Nat.zero_add] at he
      simp only [build_blob_entities, hb, he]
    | ok bs =>
      have hrest : ∃ tx vhs i vh, (tx, vhs) ∈ rest ∧
          vhs.get? i = some vh ∧ lookup_blob vh_map vh = none := by
        obtain ⟨tx, vhs, i, vh, hmem, hget, hln⟩ := hunm
        rcases List.mem_cons.mp hmem with heq | hmem'
        · obtain ⟨h1, h2⟩ := Prod.mk.inj heq
          subst h1
          subst h2
          exact absurd hln
            (build_tx_blobs_ok_all_matched vh_map tx vhs 0 bs hb i vh hget)
        · exact ⟨tx, vhs, i, vh, hmem', hget, hln⟩
      obtain ⟨tx, i, vh, vhs, hmem, hget, hln, hbuild⟩ := ih hrest
      refine ⟨tx, i, vh, vhs, List.mem_cons_of_mem _ hmem, hget, hln, ?_⟩
      simp only [build_blob_entities, hb, hbuild]

/-- The blob stage fails with the builder's error when commitments
were advertised, the columns sidecar is present and non-empty, and
the blob-entity build fails. -/
theorem fetch_blob_entities_error (env : ChainEnv) (slot : Nat)
    (m : List (Nat × List Nat)) (columns : ColumnsResponse) (e : SlotError)
    (hcols : env.get_columns slot = .ok (some columns))
    (hdata : columns.data ≠ [])
    (hbuild : build_blob_entities
      (create_versioned_hash_blob_mapping columns.data) m = .error e) :
    fetch_blob_entities env slot true m = .error e := by
  obtain ⟨b0, bs, hcons⟩ := List.exists_cons_of_ne_nil hdata
  rw [hcons] at hbuild
  simp [fetch_blob_entities, hcols, hcons, BlobsResponse.ofColumns, hbuild]

/-- `process_slot_with_validators` returns the blob stage's error with
nothing submitted when a validator is found and the block entity
builds. -/
theorem with_validators_blob_error (env : ChainEnv) (slot : Nat)
    (kzg : Bool) (eb : EthersBlock) (m : List (Nat × List Nat))
    (txs : List Transaction) (vals : List Validator) (v : Validator)
    (blk : Block) (e : SlotError)
    (hfind : vals.find? (fun validator => validator.slot = slot) = some v)
    (hbt : Block.try_from eb slot v.pubkey = .ok blk)
    (hfb : fetch_blob_entities env slot kzg m = .error e) :
    process_slot_with_validators env slot kzg eb m txs vals =
      { outcome := .err e, executionFetched := true, validatorsFetched := true,
        columnsFetched := kzg, submitted := none } := by
  simp [process_slot_with_validators, hfind, hbt, hfb]

/-- Claim C3: when some declared `(tx_hash, versioned_hash)` pair has
no matching entry in the fetched sidecar mapping, `process_slot`
returns the integrity error naming an (actually unmatched)
transaction hash and per-transaction index, and submits nothing
downstream for that slot. -/
theorem process_slot_errors_on_unmatched_blob
    (env : ChainEnv) (slot n hsh : Nat) (bb : BeaconBlock)
    (pl : ExecutionPayload) (cs : List String) (eb : EthersBlock)
    (vals : List Validator) (v : Validator) (columns : ColumnsResponse)
    (h0 : slot ≠ 0)
    (hgb : env.get_block slot = .ok (some bb))
    (hpl : bb.message.body.execution_payload = some pl)
    (hcs : bb.message.body.blob_kzg_commitments = some cs)
    (hcs' : cs ≠ [])
    (heb : env.get_block_with_txs pl.block_hash = .ok (some eb))
    (hn : eb.number = some n) (hh : eb.hash = some hsh)
    (htx : eb.transactions ≠ [])
    (hv : env.get_validators (slot / SLOT_PER_EPOCH) = .ok (some vals))
    (hfind : vals.find? (fun validator => validator.slot = slot) = some v)
    (hcols : env.get_columns slot = .ok (some columns))
    (hdata : columns.data ≠ [])
    (hunm : ∃ tx vhs i vh,
      (tx, vhs) ∈ create_tx_hash_versioned_hashes_mapping eb ∧
      vhs.get? i = some vh ∧
      lookup_blob (create_versioned_hash_blob_mapping columns.data) vh =
        none) :
    ∃ tx i vh vhs,
      (tx, vhs) ∈ create_tx_hash_versioned_hashes_mapping eb ∧
      vhs.get? i = some vh ∧
      lookup_blob (create_versioned_hash_blob_mapping columns.data) vh =
        none ∧
      (process_slot env slot).outcome = .err (.unmatchedBlob i vh tx) ∧
      (process_slot env slot).submitted = none := by
  obtain ⟨tx, i, vh, vhs, hmem, hget, hln, hbuild⟩ :=
    build_blob_entities_error_of_unmatched _ _ hunm
  obtain ⟨c0, cs0, rfl⟩ := List.exists_cons_of_ne_nil hcs'
  have htrace : process_slot env slot =
      { outcome := .err (.unmatchedBlob i vh tx), executionFetched := true,
        validatorsFetched := true, columnsFetched := true,
        submitted := none } := by
    rw [process_slot_eq_with_payload env slot bb pl h0 hgb hpl, hcs]
    rw [with_payload_eq_with_validators env slot n _ pl.block_hash eb vals
      heb hn htx hv]
    exact with_validators_blob_error env slot _ eb _ _ vals v _ _ hfind
      (Block_try_from_ok eb slot n hsh v.pubkey hn hh)
      (fetch_blob_entities_error env slot _ columns _ hcols hdata hbuild)
  exact ⟨tx, i, vh, vhs, hmem, hget, hln, by rw [htrace], by rw [htrace]⟩

/-- Witness for C3: `envUnmatchedSidecar` at slot 7 declares
`vhFixture` from transaction 11, but the sidecar carries only a blob
with a different commitment: the slot fails with
`unmatchedBlob 0 vhFixture 11` and nothing is submitted. -/
theorem process_slot_errors_on_unmatched_blob_witness :
    (process_slot envUnmatchedSidecar 7).outcome =
      .err (.unmatchedBlob 0 vhFixture 11) ∧
    (process_slot envUnmatchedSidecar 7).submitted = none := by
  obtain ⟨tx, i, vh, vhs, _, _, _, hout, hsub⟩ :=
    process_slot_errors_on_unmatched_blob envUnmatchedSidecar 7 5 50
      bbFixture ⟨100⟩ ["c1"] ebFixture [⟨"pk", 7⟩] ⟨"pk", 7⟩
      ⟨[blobOtherFixture]⟩ (by decide) rfl rfl rfl (by decide) rfl rfl rfl
      (by decide) rfl rfl rfl (by decide)
      ⟨11, [vhFixture], 0, vhFixture, List.mem_cons_self _ _, rfl, rfl⟩
  exact ⟨rfl, hsub⟩

end DillIndexer
